import Mathlib

/-!
Verification development for the QDF decoder of the quadro-viewer repository.

The decoder lives in lib/qdfParser.ts (helpers in lib/qdf_transform_utils.ts,
record shapes in app/types/qdf_containers.ts).  Strings are embedded as lists
of characters; JavaScript numbers that arise from parseInt / parseFloat are
embedded as Option Int / Option Rat, with none standing for NaN (non-finite
numerals such as Infinity are not modelled).  The real-valued transform math
(square-root decode, quaternion normalisation, rotation of offset vectors) is
embedded over the real numbers in a second layer: the TypeScript records store
position and quaternion eagerly, and since both are functions of the stored
raw orientation (plus the length field for tubes), the embedding derives them
through explicit functions on that stored data.
-/

namespace QdfViewer

/-! ## Character-list string utilities -/

/-- Whitespace trim from both ends, as String.prototype.trim. -/
def listTrim (s : List Char) : List Char :=
  ((s.dropWhile Char.isWhitespace).reverse.dropWhile Char.isWhitespace).reverse

/-- First index of a character, as String.prototype.indexOf (none for -1). -/
def indexOfChar (c : Char) : List Char → Option Nat
  | [] => none
  | x :: xs => if x = c then some 0 else (indexOfChar c xs).map (· + 1)

/-- Last index of a character, as String.prototype.lastIndexOf (none for -1). -/
def lastIndexOfChar (c : Char) (s : List Char) : Option Nat :=
  (indexOfChar c s.reverse).map (fun i => s.length - 1 - i)

/-- Split on a separator character, as String.prototype.split with a
one-character separator: the result is never empty and keeps empty pieces. -/
def splitOnChar (sep : Char) : List Char → List (List Char)
  | [] => [[]]
  | c :: rest =>
    match splitOnChar sep rest with
    | [] => [[]]
    | h :: t => if c = sep then [] :: h :: t else (c :: h) :: t

/-- Split of text into lines on the regular expression CR? LF used by parseQdf:
split on LF, then remove a single trailing CR from each piece. -/
def splitLines (cs : List Char) : List (List Char) :=
  (splitOnChar (Char.ofNat 10) cs).map
    (fun l => if l.getLast? = some (Char.ofNat 13) then l.dropLast else l)

/-! ## JavaScript numeral parsing

parseInt(s, 10) and parseFloat(s) parse the longest numeric prefix after
optional whitespace and sign, yielding NaN (here: none) when no digit is
found. -/

/-- Value of a list of decimal digits. -/
def digitsVal (ds : List Char) : Nat :=
  ds.foldl (fun acc c => acc * 10 + (c.toNat - 48)) 0

/-! Rational arithmetic is written through mkRat so that every value the
parser builds is in normal form and concrete runs reduce inside the kernel;
the theorems ratMul_eq, ratAdd_eq, ratDiv_eq, ratPow_eq and ratFloor_eq
below identify these helpers with the field operations of Rat. -/

/-- Rational multiplication through mkRat. -/
def ratMul (a b : Rat) : Rat :=
  mkRat (a.num * b.num) (a.den * b.den)

/-- Rational addition through mkRat. -/
def ratAdd (a b : Rat) : Rat :=
  mkRat (a.num * b.den + b.num * a.den) (a.den * b.den)

/-- Rational division through mkRat. -/
def ratDiv (a b : Rat) : Rat :=
  if b.num < 0 then mkRat (-(a.num * (b.den : Int))) (a.den * b.num.natAbs)
  else mkRat (a.num * (b.den : Int)) (a.den * b.num.natAbs)

/-- Rational power with a natural exponent. -/
def ratPow (a : Rat) : Nat → Rat
  | 0 => 1
  | n + 1 => ratMul (ratPow a n) a

/-- Rational power with an integer exponent. -/
def ratZpow (a : Rat) : Int → Rat
  | .ofNat n => ratPow a n
  | .negSucc n => ratDiv 1 (ratPow a (n + 1))

/-- Floor of a rational, as flooring integer division of numerator by
denominator. -/
def ratFloor (q : Rat) : Int :=
  q.num.fdiv q.den

/-- parseInt(s, 10): whitespace, optional sign, decimal digit run. -/
def jsParseInt (s : List Char) : Option Int :=
  let t := s.dropWhile Char.isWhitespace
  let signAndRest : Int × List Char :=
    match t with
    | '-' :: rest => (-1, rest)
    | '+' :: rest => (1, rest)
    | _ => (1, t)
  let ds := signAndRest.2.takeWhile Char.isDigit
  if ds = [] then none else some (signAndRest.1 * (digitsVal ds : Int))

/-- parseFloat(s): whitespace, optional sign, digits with optional fraction
and optional exponent; the mantissa needs at least one digit. -/
def jsParseFloat (s : List Char) : Option Rat :=
  let t := s.dropWhile Char.isWhitespace
  let signAndRest : Rat × List Char :=
    match t with
    | '-' :: rest => (-1, rest)
    | '+' :: rest => (1, rest)
    | _ => (1, t)
  let t2 := signAndRest.2
  let intPart := t2.takeWhile Char.isDigit
  let t3 := t2.dropWhile Char.isDigit
  let fracAndRest : List Char × List Char :=
    match t3 with
    | '.' :: rest => (rest.takeWhile Char.isDigit, rest.dropWhile Char.isDigit)
    | _ => ([], t3)
  let fracPart := fracAndRest.1
  if intPart = [] ∧ fracPart = [] then none
  else
    let mant : Rat := ratAdd (digitsVal intPart : Rat)
      (ratDiv (digitsVal fracPart : Rat) (ratPow 10 fracPart.length))
    let expVal : Int :=
      match fracAndRest.2 with
      | e :: rest =>
        if e = 'e' ∨ e = 'E' then
          let esignAndRest : Int × List Char :=
            match rest with
            | '-' :: rr => (-1, rr)
            | '+' :: rr => (1, rr)
            | _ => (1, rest)
          let eds := esignAndRest.2.takeWhile Char.isDigit
          if eds = [] then 0 else esignAndRest.1 * (digitsVal eds : Int)
        else 0
      | [] => 0
    some (ratMul (ratMul signAndRest.1 mant) (ratZpow 10 expVal))

/-! ## Tokenizing helpers of lib/qdfParser.ts -/

/-- Result of extractInnerBraceBlock: the text before the first balanced
brace block, the block itself (braces included), and the text after it. -/
structure BraceSplit where
  before : List Char
  block : Option (List Char)
  after : List Char
deriving DecidableEq

/-- Depth-counting scan of extractInnerBraceBlock, started at the first
opening brace: returns the relative index at which the depth returns to 0. -/
def findBalanceLen : List Char → Int → Nat → Option Nat
  | [], _, _ => none
  | c :: rest, depth, i =>
    let d := if c = '{' then depth + 1 else depth
    let d2 := if c = '}' then d - 1 else d
    if c = '}' ∧ d2 = 0 then some i else findBalanceLen rest d2 (i + 1)

/-- extractInnerBraceBlock: split a record body at its first balanced
brace-delimited block; no opening brace, or a depth that never returns to 0,
yields block = none (and after = empty, as in the source). -/
def extractInnerBraceBlock (content : List Char) : BraceSplit :=
  match indexOfChar '{' content with
  | none => ⟨content, none, []⟩
  | some start =>
    match findBalanceLen (content.drop start) 0 0 with
    | none => ⟨content, none, []⟩
    | some len =>
      ⟨content.take start, some ((content.drop start).take (len + 1)),
        content.drop (start + len + 1)⟩

/-- splitCommaParams: split on commas, trim, drop empty tokens. -/
def splitCommaParams (s : List Char) : List (List Char) :=
  ((splitOnChar ',' s).map listTrim).filter (fun p => p ≠ [])

/-- Loop of splitCsvRespectQuotes: commas inside double-quoted spans do not
split; every comma pushes the trimmed current token (empty ones included);
the final token is pushed only when nonempty after trimming. -/
def splitCsvGo : List Char → List Char → Bool → List (List Char)
  | [], current, _ => if listTrim current ≠ [] then [listTrim current] else []
  | c :: rest, current, inQuotes =>
    if c = '"' then splitCsvGo rest (current ++ [c]) (!inQuotes)
    else if c = ',' ∧ inQuotes = false then
      listTrim current :: splitCsvGo rest [] inQuotes
    else splitCsvGo rest (current ++ [c]) inQuotes

/-- splitCsvRespectQuotes: top-level CSV split respecting quoted spans. -/
def splitCsvRespectQuotes (s : List Char) : List (List Char) :=
  splitCsvGo s [] false

/-- The common head of every record parser: content between the first
opening brace and the last closing brace of the line, trimmed; none when a
brace is missing or the last closing brace is not after the first opening
brace. -/
def outerBraceContent (line : List Char) : Option (List Char) :=
  match indexOfChar '{' line, lastIndexOfChar '}' line with
  | some st, some en =>
    if en ≤ st then none
    else some (listTrim ((line.drop (st + 1)).take (en - st - 1)))
  | _, _ => none

/-! ## Orientation block -/

/-- The raw 7-number orientation block: compressed quaternion a..d and
position x, y, z, as literally present in the text. -/
structure QdfOrientation where
  a : Rat
  b : Rat
  c : Rat
  d : Rat
  x : Rat
  y : Rat
  z : Rat
deriving DecidableEq

/-- Tokens of an orientation block: braces stripped anywhere, split on
commas, trimmed, empty tokens dropped (the first lines of
parseOrientationBlock). -/
def orientationTokens (block : List Char) : List (List Char) :=
  ((splitOnChar ','
      (block.filter (fun c => ¬(c = '{' ∨ c = '}')))).map listTrim).filter
    (fun p => p ≠ [])

/-- parseOrientationBlock: fewer than 7 tokens rejects; the first 7 tokens
must all parse as floats (a NaN anywhere among them rejects); tokens past
the seventh are ignored. -/
def parseOrientationBlock (block : List Char) : Option QdfOrientation :=
  let parts := orientationTokens block
  if parts.length < 7 then none
  else
    match (parts.take 7).mapM jsParseFloat with
    | some [a, b, c, d, x, y, z] => some ⟨a, b, c, d, x, y, z⟩
    | _ => none

/-! ## Connector topology classifier -/

/-- The semantic connector categories of qdf_containers.ts.  The source also
references a forty-five-degree category from the connector45 parser, included
here as its own constructor. -/
inductive QdfConnectorKind where
  | STRAIGHT
  | L_CONNECTOR
  | T_CONNECTOR
  | CORNER_CONNECTOR
  | FOUR_WAY_CONNECTOR
  | CROSS_CONNECTOR
  | FIVE_WAY_CONNECTOR
  | HUB_CONNECTOR
  | FOURTY_FIVE_DEGREE_CONNECTOR
  | INVALID
deriving DecidableEq

/-- Halving loop of countConnectorBits with explicit fuel; the fuel is the
starting value itself, which bounds the number of halvings. -/
def countBitsLoop : Nat → Nat → Nat
  | _, 0 => 0
  | 0, _ + 1 => 0
  | fuel + 1, n + 1 => (n + 1) % 2 + countBitsLoop fuel ((n + 1) / 2)

/-- countConnectorBits: population count via the add-low-bit-and-shift loop. -/
def countConnectorBits (n : Nat) : Nat :=
  countBitsLoop n n

/-- isStraight: exactly one axis pair has both of its direction bits set. -/
def isStraight (bitmask : Nat) : Bool :=
  let xAxis := bitmask &&& 0x03 = 0x03
  let yAxis := bitmask &&& 0x0C = 0x0C
  let zAxis := bitmask &&& 0x30 = 0x30
  decide ((xAxis ∧ ¬yAxis ∧ ¬zAxis) ∨ (¬xAxis ∧ yAxis ∧ ¬zAxis) ∨
    (¬xAxis ∧ ¬yAxis ∧ zAxis))

/-- isCornerConnector: per-axis bit counts; with three connections, one per
axis (the two-connection branch of the source is kept although the caller
only reaches this function with three connections). -/
def isCornerConnector (bitmask : Nat) : Bool :=
  let xCount := countConnectorBits (bitmask &&& 0x03)
  let yCount := countConnectorBits (bitmask &&& 0x0C)
  let zCount := countConnectorBits (bitmask &&& 0x30)
  let total := xCount + yCount + zCount
  if total = 2 then
    decide ((xCount ≤ 1 ∧ yCount ≤ 1 ∧ zCount ≤ 1) ∧
      (xCount = 0 ∨ yCount = 0 ∨ zCount = 0))
  else if total = 3 then decide (xCount = 1 ∧ yCount = 1 ∧ zCount = 1)
  else false

/-- isCrossConnector: one axis with no bits, the other two with at least
one bit each. -/
def isCrossConnector (bitmask : Nat) : Bool :=
  let xCount := countConnectorBits (bitmask &&& 0x03)
  let yCount := countConnectorBits (bitmask &&& 0x0C)
  let zCount := countConnectorBits (bitmask &&& 0x30)
  decide ((xCount = 0 ∧ 0 < yCount ∧ 0 < zCount) ∨
    (yCount = 0 ∧ 0 < xCount ∧ 0 < zCount) ∨
    (zCount = 0 ∧ 0 < xCount ∧ 0 < yCount))

/-- getConnectorCategory: dispatch on the population count of the mask. -/
def getConnectorCategory (bitmask : Nat) : QdfConnectorKind :=
  match countConnectorBits bitmask with
  | 0 => .INVALID
  | 1 => .INVALID
  | 2 => if isStraight bitmask then .STRAIGHT else .L_CONNECTOR
  | 3 => if isCornerConnector bitmask then .CORNER_CONNECTOR else .T_CONNECTOR
  | 4 => if isCrossConnector bitmask then .CROSS_CONNECTOR else .FOUR_WAY_CONNECTOR
  | 5 => .FIVE_WAY_CONNECTOR
  | 6 => .HUB_CONNECTOR
  | _ => .INVALID

/-- The connector-type field reaching getConnectorCategory is a parseInt
result: NaN has no set bits and classifies as INVALID; the mask value is
taken through toNat (negative masks are not modelled). -/
def connectorCategoryOfField (i : Option Int) : QdfConnectorKind :=
  match i with
  | some n => getConnectorCategory n.toNat
  | none => .INVALID

/-! ## Record types

Fields produced by parseInt / parseFloat without a NaN check are Option
values (none = NaN).  The eagerly stored position and quaternion of the
TypeScript records are derived functions of the stored orientation (and of
the length field, for tubes); they are defined in the transform layer
below. -/

/-- connector3 record (QdfConnector3). -/
structure QdfConnector3 where
  id : Int
  orientation : QdfOrientation
  colorId : Option Int
  variant1 : Option Int
  variant2 : Option Int
  variant3 : Option Int
  variant4 : Option Int
  reserved : Option Int
  connectorKind : QdfConnectorKind
  renderRangeStart : Option (Option Int)
  renderRangeEnd : Option (Option Int)
deriving DecidableEq

/-- connector45_2 record (QdfConnector45). -/
structure QdfConnector45 where
  id : Int
  orientation : QdfOrientation
  connectorType : Option Int
  connectorKind : QdfConnectorKind
  flag1 : Option Int
  flag2 : Option Int
  renderRangeStart : Option (Option Int)
  renderRangeEnd : Option (Option Int)
deriving DecidableEq

/-- tube2 record (QdfTube). -/
structure QdfTube where
  id : Int
  orientation : QdfOrientation
  materialId : Option Int
  length : Option Rat
  dim2 : Option Rat
  dim3 : Option Rat
  renderRangeStart : Option (Option Int)
  renderRangeEnd : Option (Option Int)
deriving DecidableEq

/-- Shared record of panel2 / display2 / textil2 (QdfPanelBase); the kind
tag lives on the geometry union constructor. -/
structure QdfPanelRec where
  id : Int
  orientation : QdfOrientation
  materialId : Option Int
  dim1 : Option Rat
  dim2 : Option Rat
  dim3 : Option Rat
  offset1 : Option Rat
  offset2 : Option Rat
  renderRangeStart : Option (Option Int)
  renderRangeEnd : Option (Option Int)
deriving DecidableEq

/-- Shared record of clamp2 / slide2 / slide-end2 / multi-wheel2; the kind
tag lives on the geometry union constructor. -/
structure QdfClampRec where
  id : Int
  orientation : QdfOrientation
  materialId : Option Int
  flag : Option Int
  renderRangeStart : Option (Option Int)
  renderRangeEnd : Option (Option Int)
deriving DecidableEq

/-- Channel triple of a material; channels are parseFloat results. -/
structure QdfColor where
  r : Option Rat
  g : Option Rat
  b : Option Rat
deriving DecidableEq

/-- material3 record (QdfMaterial); the id has no NaN check in the source,
hence Option Int. -/
structure QdfMaterial where
  id : Option Int
  name : List Char
  materialType : Option Int
  linearColor : QdfColor
  srgbColor : QdfColor
  colorHex : Int
  flags : Option Int
deriving DecidableEq

/-- The closed geometry union (QdfGeometry), one constructor per kind tag. -/
inductive QdfGeometry where
  | connector3 (c : QdfConnector3)
  | connector45 (c : QdfConnector45)
  | tube (t : QdfTube)
  | panel (p : QdfPanelRec)
  | display (p : QdfPanelRec)
  | textile (p : QdfPanelRec)
  | clamp (c : QdfClampRec)
  | slide (c : QdfClampRec)
  | slideEnd (c : QdfClampRec)
  | wheel (c : QdfClampRec)
deriving DecidableEq

/-! ## Per-kind record parsers -/

/-- The head shared verbatim by every geometry-record parser of the source:
outer brace content, inner orientation block, orientation decode, id token
(first comma field before the block, trimmed) parsed as an integer with a
NaN check, and the comma parameters after the block. -/
def geomHead (line : List Char) : Option (Int × QdfOrientation × List (List Char)) :=
  match outerBraceContent line with
  | none => none
  | some content =>
    let split := extractInnerBraceBlock content
    match split.block with
    | none => none
    | some block =>
      match parseOrientationBlock block with
      | none => none
      | some orientation =>
        match jsParseInt (listTrim ((splitOnChar ',' split.before).headD [])) with
        | none => none
        | some id => some (id, orientation, splitCommaParams split.after)

/-- The comma parameters a geometry line would yield ([] when the head
fails); used to state the rejection of extra trailing fields. -/
def geomParams (line : List Char) : List (List Char) :=
  match geomHead line with
  | some (_, _, params) => params
  | none => []

/-- The trimmed id token a geometry line would yield ([] when the outer
braces are missing). -/
def geomIdToken (line : List Char) : List Char :=
  match outerBraceContent line with
  | none => []
  | some content =>
    listTrim ((splitOnChar ',' (extractInnerBraceBlock content).before).headD [])

/-- parseConnector3Line: at least 6 parameters; a 7th parameter is read as
the render-range start and any record carrying one is rejected. -/
def parseConnector3Line (line : List Char) : Option QdfConnector3 :=
  match geomHead line with
  | none => none
  | some (id, orientation, params) =>
    if params.length < 6 then none
    else
      let colorId := jsParseInt (params.getD 0 [])
      let rotationIndex := jsParseInt (params.getD 1 [])
      let connectorType := jsParseInt (params.getD 2 [])
      let gridJ := jsParseInt (params.getD 3 [])
      let flags := jsParseInt (params.getD 4 [])
      let reserved := jsParseInt (params.getD 5 [])
      let renderRangeStart : Option (Option Int) :=
        if 7 ≤ params.length then some (jsParseInt (params.getD 6 [])) else none
      let renderRangeEnd : Option (Option Int) :=
        if 8 ≤ params.length then some (jsParseInt (params.getD 7 [])) else none
      let connectorKind := connectorCategoryOfField connectorType
      if renderRangeStart.isSome then none
      else
        some {
          id := id, orientation := orientation, colorId := colorId,
          variant1 := rotationIndex, variant2 := connectorType,
          variant3 := gridJ, variant4 := flags, reserved := reserved,
          connectorKind := connectorKind,
          renderRangeStart := renderRangeStart,
          renderRangeEnd := renderRangeEnd }

/-- parseConnector45Line: at least 3 parameters; a 4th parameter is the
render-range start and forces rejection. -/
def parseConnector45Line (line : List Char) : Option QdfConnector45 :=
  match geomHead line with
  | none => none
  | some (id, orientation, params) =>
    if params.length < 3 then none
    else
      let connectorType := jsParseInt (params.getD 0 [])
      let flag1 := jsParseInt (params.getD 1 [])
      let flag2 := jsParseInt (params.getD 2 [])
      let renderRangeStart : Option (Option Int) :=
        if 4 ≤ params.length then some (jsParseInt (params.getD 3 [])) else none
      let renderRangeEnd : Option (Option Int) :=
        if 5 ≤ params.length then some (jsParseInt (params.getD 4 [])) else none
      if renderRangeStart.isSome then none
      else
        some {
          id := id, orientation := orientation,
          connectorType := connectorType,
          connectorKind := .FOURTY_FIVE_DEGREE_CONNECTOR, flag1 := flag1,
          flag2 := flag2, renderRangeStart := renderRangeStart,
          renderRangeEnd := renderRangeEnd }

/-- parseTubeLine: at least 4 parameters (materialId, length, dim2, dim3);
a 5th parameter is the render-range start and forces rejection. -/
def parseTubeLine (line : List Char) : Option QdfTube :=
  match geomHead line with
  | none => none
  | some (id, orientation, params) =>
    if params.length < 4 then none
    else
      let materialId := jsParseInt (params.getD 0 [])
      let dim1 := jsParseFloat (params.getD 1 [])
      let dim2 := jsParseFloat (params.getD 2 [])
      let dim3 := jsParseFloat (params.getD 3 [])
      let renderRangeStart : Option (Option Int) :=
        if 5 ≤ params.length then some (jsParseInt (params.getD 4 [])) else none
      let renderRangeEnd : Option (Option Int) :=
        if 6 ≤ params.length then some (jsParseInt (params.getD 5 [])) else none
      if renderRangeStart.isSome then none
      else
        some {
          id := id, orientation := orientation,
          materialId := materialId, length := dim1,
          dim2 := dim2, dim3 := dim3,
          renderRangeStart := renderRangeStart,
          renderRangeEnd := renderRangeEnd }

/-- parsePanelLike: at least 6 parameters; a 7th parameter is the
render-range start and forces rejection. -/
def parsePanelLike (line : List Char) : Option QdfPanelRec :=
  match geomHead line with
  | none => none
  | some (id, orientation, params) =>
    if params.length < 6 then none
    else
      let materialId := jsParseInt (params.getD 0 [])
      let dim1 := jsParseFloat (params.getD 1 [])
      let dim2 := jsParseFloat (params.getD 2 [])
      let dim3 := jsParseFloat (params.getD 3 [])
      let offset1 := jsParseFloat (params.getD 4 [])
      let offset2 := jsParseFloat (params.getD 5 [])
      let renderRangeStart : Option (Option Int) :=
        if 7 ≤ params.length then some (jsParseInt (params.getD 6 [])) else none
      let renderRangeEnd : Option (Option Int) :=
        if 8 ≤ params.length then some (jsParseInt (params.getD 7 [])) else none
      if renderRangeStart.isSome then none
      else
        some {
          id := id, orientation := orientation,
          materialId := materialId, dim1 := dim1, dim2 := dim2, dim3 := dim3,
          offset1 := offset1, offset2 := offset2,
          renderRangeStart := renderRangeStart,
          renderRangeEnd := renderRangeEnd }

/-- parseClampLike: at least 2 parameters; a 3rd parameter is the
render-range start and forces rejection. -/
def parseClampLike (line : List Char) : Option QdfClampRec :=
  match geomHead line with
  | none => none
  | some (id, orientation, params) =>
    if params.length < 2 then none
    else
      let materialId := jsParseInt (params.getD 0 [])
      let flag := jsParseInt (params.getD 1 [])
      let renderRangeStart : Option (Option Int) :=
        if 3 ≤ params.length then some (jsParseInt (params.getD 2 [])) else none
      let renderRangeEnd : Option (Option Int) :=
        if 4 ≤ params.length then some (jsParseInt (params.getD 3 [])) else none
      if renderRangeStart.isSome then none
      else
        some {
          id := id, orientation := orientation,
          materialId := materialId, flag := flag,
          renderRangeStart := renderRangeStart,
          renderRangeEnd := renderRangeEnd }

/-- Channel clamp of parseMaterialLine (NaN propagates). -/
def clamp01 (v : Option Rat) : Option Rat :=
  v.map (fun q => min 1 (max 0 q))

/-- Math.round(v * 255): round half towards positive infinity, written as
the floor of the value plus one half. -/
def to255 (v : Option Rat) : Option Int :=
  v.map (fun q => ratFloor (ratAdd (ratMul q 255) (mkRat 1 2)))

/-- Byte packing of the clamped channels; a NaN channel contributes 0, as
JavaScript bitwise operators coerce NaN to 0. -/
def packColorHex (r g b : Option Int) : Int :=
  (((r.getD 0).toNat <<< 16) ||| ((g.getD 0).toNat <<< 8) ||| (b.getD 0).toNat : Nat)

/-- parseMaterialLine: outer brace content split as quote-respecting CSV;
at least 16 fields; field 0 = id, 1 = quoted name, 2 = type, 3..5 = RGB,
last field = flags; no NaN check on any field. -/
def parseMaterialLine (line : List Char) : Option QdfMaterial :=
  match outerBraceContent line with
  | none => none
  | some content =>
    let fields := splitCsvRespectQuotes content
    if fields.length < 16 then none
    else
      let id := jsParseInt (fields.getD 0 [])
      let rawName := fields.getD 1 []
      let name :=
        if rawName.head? = some '"' ∧ rawName.getLast? = some '"' then
          (rawName.drop 1).dropLast
        else rawName
      let materialType := jsParseInt (fields.getD 2 [])
      let r1 := jsParseFloat (fields.getD 3 [])
      let g1 := jsParseFloat (fields.getD 4 [])
      let b1 := jsParseFloat (fields.getD 5 [])
      let flags := jsParseInt (fields.getD (fields.length - 1) [])
      let lr := clamp01 r1
      let lg := clamp01 g1
      let lb := clamp01 b1
      let colorHex := packColorHex (to255 lr) (to255 lg) (to255 lb)
      some {
        id := id, name := name, materialType := materialType,
        linearColor := ⟨lr, lg, lb⟩, srgbColor := ⟨lr, lg, lb⟩,
        colorHex := colorHex, flags := flags }

/-! ## Assembly builder (parseQdf) -/

/-- Character-list form of a keyword literal. -/
def kw (s : String) : List Char := s.data

/-- String.prototype.startsWith on character lists. -/
def isPrefixList : List Char → List Char → Bool
  | [], _ => true
  | _ :: _, [] => false
  | p :: ps, c :: cs => p == c && isPrefixList ps cs

/-- String.prototype.endsWith on character lists. -/
def isSuffixList (p s : List Char) : Bool :=
  isPrefixList p.reverse s.reverse

/-- The per-line dispatch of the parseQdf loop body: blank lines, the
header line (prefix 0-comma with suffix semicolon) and comment lines yield
nothing; otherwise the leading keyword picks the record parser, with
slide-new2 parsed as a slide; unrecognized keywords yield nothing. -/
def classifyLine (rawLine : List Char) : Option (QdfMaterial ⊕ QdfGeometry) :=
  let line := listTrim rawLine
  if line = [] then none
  else if isPrefixList (kw "0,") line && isSuffixList (kw ";") line then none
  else if isPrefixList (kw "//") line || isPrefixList (kw "#") line then none
  else if isPrefixList (kw "material3") line then
    (parseMaterialLine line).map Sum.inl
  else if isPrefixList (kw "connector3") line then
    (parseConnector3Line line).map (fun c => Sum.inr (.connector3 c))
  else if isPrefixList (kw "connector45_2") line then
    (parseConnector45Line line).map (fun c => Sum.inr (.connector45 c))
  else if isPrefixList (kw "tube2") line then
    (parseTubeLine line).map (fun t => Sum.inr (.tube t))
  else if isPrefixList (kw "panel2") line then
    (parsePanelLike line).map (fun p => Sum.inr (.panel p))
  else if isPrefixList (kw "display2") line then
    (parsePanelLike line).map (fun p => Sum.inr (.display p))
  else if isPrefixList (kw "textil2") line then
    (parsePanelLike line).map (fun p => Sum.inr (.textile p))
  else if isPrefixList (kw "clamp2") line then
    (parseClampLike line).map (fun c => Sum.inr (.clamp c))
  else if isPrefixList (kw "slide2") line then
    (parseClampLike line).map (fun c => Sum.inr (.slide c))
  else if isPrefixList (kw "slide-new2") line then
    (parseClampLike line).map (fun c => Sum.inr (.slide c))
  else if isPrefixList (kw "slide-end2") line then
    (parseClampLike line).map (fun c => Sum.inr (.slideEnd c))
  else if isPrefixList (kw "multi-wheel2") line then
    (parseClampLike line).map (fun c => Sum.inr (.wheel c))
  else none

/-- Accumulation step of the parseQdf loop: a parsed material or geometry
is appended to its list; a skipped or rejected line leaves both untouched. -/
def qdfStep (acc : List QdfMaterial × List QdfGeometry) (rawLine : List Char) :
    List QdfMaterial × List QdfGeometry :=
  match classifyLine rawLine with
  | some (Sum.inl m) => (acc.1 ++ [m], acc.2)
  | some (Sum.inr g) => (acc.1, acc.2 ++ [g])
  | none => acc

/-- The ten per-kind lists built by the convenience split at the end of
parseQdf. -/
structure GeomPartition where
  connectors : List QdfConnector3
  connector45s : List QdfConnector45
  tubes : List QdfTube
  panels : List QdfPanelRec
  displayPanels : List QdfPanelRec
  textiles : List QdfPanelRec
  clamps : List QdfClampRec
  slides : List QdfClampRec
  slideEnds : List QdfClampRec
  wheels : List QdfClampRec
deriving DecidableEq

/-- The empty partition. -/
def GeomPartition.empty : GeomPartition :=
  ⟨[], [], [], [], [], [], [], [], [], []⟩

/-- Switch body of the partition loop: push the record on the list of its
kind tag. -/
def partitionStep (p : GeomPartition) : QdfGeometry → GeomPartition
  | .connector3 c => { p with connectors := p.connectors ++ [c] }
  | .connector45 c => { p with connector45s := p.connector45s ++ [c] }
  | .tube t => { p with tubes := p.tubes ++ [t] }
  | .panel q => { p with panels := p.panels ++ [q] }
  | .display q => { p with displayPanels := p.displayPanels ++ [q] }
  | .textile q => { p with textiles := p.textiles ++ [q] }
  | .clamp c => { p with clamps := p.clamps ++ [c] }
  | .slide c => { p with slides := p.slides ++ [c] }
  | .slideEnd c => { p with slideEnds := p.slideEnds ++ [c] }
  | .wheel c => { p with wheels := p.wheels ++ [c] }

/-- The second loop of parseQdf: split the flat geometry list by kind. -/
def partitionGeoms (gs : List QdfGeometry) : GeomPartition :=
  gs.foldl partitionStep GeomPartition.empty

/-- The parsed model without the raw text: material list, flat geometry
list, per-kind geometry lists. -/
structure QdfModel where
  materials : List QdfMaterial
  geometries : List QdfGeometry
  connectors : List QdfConnector3
  connector45s : List QdfConnector45
  tubes : List QdfTube
  panels : List QdfPanelRec
  displayPanels : List QdfPanelRec
  textiles : List QdfPanelRec
  clamps : List QdfClampRec
  slides : List QdfClampRec
  slideEnds : List QdfClampRec
  wheels : List QdfClampRec
deriving DecidableEq

/-- The line-level body of parseQdf: one pass accumulating materials and
geometries in source order, then the by-kind split. -/
def parseQdfCore (lines : List (List Char)) : QdfModel :=
  let acc := lines.foldl qdfStep ([], [])
  let p := partitionGeoms acc.2
  { materials := acc.1, geometries := acc.2, connectors := p.connectors,
    connector45s := p.connector45s, tubes := p.tubes, panels := p.panels,
    displayPanels := p.displayPanels, textiles := p.textiles,
    clamps := p.clamps, slides := p.slides, slideEnds := p.slideEnds,
    wheels := p.wheels }

/-- The full parsed value (QdfParsedFile): the raw text plus the model. -/
structure QdfParsedFile where
  rawText : List Char
  model : QdfModel
deriving DecidableEq

/-- parseQdf: split the text on CR? LF and run the single pass. -/
def parseQdf (text : String) : QdfParsedFile :=
  ⟨text.data, parseQdfCore (splitLines text.data)⟩

/-! ## Transform layer (lib/qdf_transform_utils.ts), over the reals

The source stores position and quaternion eagerly inside each record; both
are functions of the record's raw orientation (and, for tubes, its length
field), so the embedding computes them here from the stored raw data. -/

/-- Three.js quaternion: components x, y, z and scalar w. -/
structure QuatR where
  x : ℝ
  y : ℝ
  z : ℝ
  w : ℝ

/-- Three.js 3-vector. -/
structure Vec3R where
  x : ℝ
  y : ℝ
  z : ℝ

/-- Componentwise vector addition (Vector3.add). -/
def vecAdd (u v : Vec3R) : Vec3R :=
  ⟨u.x + v.x, u.y + v.y, u.z + v.z⟩

/-- Hamilton product, as Quaternion.multiplyQuaternions (p times q). -/
def quatMul (p q : QuatR) : QuatR :=
  ⟨p.x * q.w + p.w * q.x + p.y * q.z - p.z * q.y,
   p.y * q.w + p.w * q.y + p.z * q.x - p.x * q.z,
   p.z * q.w + p.w * q.z + p.x * q.y - p.y * q.x,
   p.w * q.w - p.x * q.x - p.y * q.y - p.z * q.z⟩

/-- Squared euclidean norm of a quaternion. -/
def quatNormSq (q : QuatR) : ℝ :=
  q.x * q.x + q.y * q.y + q.z * q.z + q.w * q.w

/-- Quaternion.length. -/
noncomputable def quatLength (q : QuatR) : ℝ :=
  Real.sqrt (quatNormSq q)

open Classical in
/-- Quaternion.normalize: scale to unit length; a zero-length quaternion
becomes the identity quaternion. -/
noncomputable def quatNormalize (q : QuatR) : QuatR :=
  if quatLength q = 0 then ⟨0, 0, 0, 1⟩
  else ⟨q.x / quatLength q, q.y / quatLength q, q.z / quatLength q,
    q.w / quatLength q⟩

/-- Vector3.applyQuaternion: rotate a vector by a quaternion. -/
def applyQuaternion (v : Vec3R) (q : QuatR) : Vec3R :=
  let tx := 2 * (q.y * v.z - q.z * v.y)
  let ty := 2 * (q.z * v.x - q.x * v.z)
  let tz := 2 * (q.x * v.y - q.y * v.x)
  ⟨v.x + q.w * tx + q.y * tz - q.z * ty,
   v.y + q.w * ty + q.z * tx - q.x * tz,
   v.z + q.w * tz + q.x * ty - q.y * tx⟩

/-- reverseSquaredScaling of decodeQdfQuaternion: the sign is computed by
comparison with zero (value below zero gives minus one, otherwise one). -/
noncomputable def reverseSquaredScaling (v : ℝ) : ℝ :=
  (if v < 0 then (-1 : ℝ) else 1) * Real.sqrt |v|

/-- The fixed correction quaternion: setFromAxisAngle on the positive Z
axis with angle pi over two (half-angle pi over four). -/
noncomputable def zRotation : QuatR :=
  ⟨0, 0, Real.sin (Real.pi / 4), Real.cos (Real.pi / 4)⟩

/-- decodeQdfQuaternion: undo the signed-square scaling of a, b, c, d;
build the quaternion with components x = b, y = c, z = d and scalar w = a;
normalize; right-multiply by the fixed Z correction; normalize again. -/
noncomputable def decodeQdfQuaternion (o : QdfOrientation) : QuatR :=
  let qa := reverseSquaredScaling (o.a : ℝ)
  let qb := reverseSquaredScaling (o.b : ℝ)
  let qc := reverseSquaredScaling (o.c : ℝ)
  let qd := reverseSquaredScaling (o.d : ℝ)
  quatNormalize (quatMul (quatNormalize ⟨qb, qc, qd, qa⟩) zRotation)

/-- addHalfTubeOffset: the local end-to-center offset (0, minus half the
length scaled by the unit scale, 0) rotated into world space by the final
quaternion. -/
noncomputable def addHalfTubeOffset (lengthMm unitScale : ℝ) (qFinal : QuatR) :
    Vec3R :=
  applyQuaternion ⟨0, -(lengthMm / 2 * unitScale), 0⟩ qFinal

/-- The raw position of an orientation block, used unchanged by every
record parser before any kind-specific offset. -/
def rawPositionR (o : QdfOrientation) : Vec3R :=
  ⟨(o.x : ℝ), (o.y : ℝ), (o.z : ℝ)⟩

/-- The position stored in a connector3 record: the raw orientation
position, no offset. -/
def connector3Position (c : QdfConnector3) : Vec3R :=
  rawPositionR c.orientation

/-- The quaternion stored in a tube record: the decoded orientation
quaternion, untouched by the offset computation. -/
noncomputable def tubeQuaternion (t : QdfTube) : QuatR :=
  decodeQdfQuaternion t.orientation

/-- The position stored in a tube record: raw position plus the rotated
half-length offset with unit scale one (none when the length field is
NaN; the source then stores NaN coordinates). -/
noncomputable def tubePosition (t : QdfTube) : Option Vec3R :=
  t.length.map (fun len =>
    vecAdd (rawPositionR t.orientation)
      (addHalfTubeOffset (len : ℝ) 1 (tubeQuaternion t)))

/-- The quaternion stored in any geometry record: every record parser
stores decodeQdfQuaternion of its raw orientation block. -/
noncomputable def geometryQuaternion : QdfGeometry → QuatR
  | .connector3 c => decodeQdfQuaternion c.orientation
  | .connector45 c => decodeQdfQuaternion c.orientation
  | .tube t => decodeQdfQuaternion t.orientation
  | .panel p => decodeQdfQuaternion p.orientation
  | .display p => decodeQdfQuaternion p.orientation
  | .textile p => decodeQdfQuaternion p.orientation
  | .clamp c => decodeQdfQuaternion c.orientation
  | .slide c => decodeQdfQuaternion c.orientation
  | .slideEnd c => decodeQdfQuaternion c.orientation
  | .wheel c => decodeQdfQuaternion c.orientation

/-! ## Specification-side definitions

These definitions follow the wording of the specification; the theorems
below compare them with the definitions taken from the source. -/

/-- Topology classifier as worded by the specification: popcount dispatch;
for two bits, straight exactly when one axis pair is fully set; for three
bits, corner exactly when every axis count is one; for four bits, cross
exactly when exactly one axis pair has no bit and the other two have at
least one each. -/
def connectorCategorySpec (m : Nat) : QdfConnectorKind :=
  let n := countConnectorBits m
  let xCount := countConnectorBits (m &&& 0x03)
  let yCount := countConnectorBits (m &&& 0x0C)
  let zCount := countConnectorBits (m &&& 0x30)
  if n = 0 ∨ n = 1 then .INVALID
  else if n = 2 then
    if m &&& 0x03 = 0x03 ∨ m &&& 0x0C = 0x0C ∨ m &&& 0x30 = 0x30 then
      .STRAIGHT
    else .L_CONNECTOR
  else if n = 3 then
    if xCount = 1 ∧ yCount = 1 ∧ zCount = 1 then .CORNER_CONNECTOR
    else .T_CONNECTOR
  else if n = 4 then
    if (xCount = 0 ∧ 1 ≤ yCount ∧ 1 ≤ zCount) ∨
        (yCount = 0 ∧ 1 ≤ xCount ∧ 1 ≤ zCount) ∨
        (zCount = 0 ∧ 1 ≤ xCount ∧ 1 ≤ yCount) then .CROSS_CONNECTOR
    else .FOUR_WAY_CONNECTOR
  else if n = 5 then .FIVE_WAY_CONNECTOR
  else if n = 6 then .HUB_CONNECTOR
  else .INVALID

/-- The signed-square decode as worded by the specification: sign of the
value times the square root of its absolute value. -/
noncomputable def reverseSquaredScalingSpec (v : ℝ) : ℝ :=
  Real.sign v * Real.sqrt |v|

/-- The orientation decode as worded by the specification: apply the
signed-square decode to a, b, c, d; build the quaternion with component
order x = b, y = c, z = d, w = a; normalize; right-multiply by the fixed
90-degree Z correction; re-normalize. -/
noncomputable def decodeQdfQuaternionSpec (o : QdfOrientation) : QuatR :=
  quatNormalize
    (quatMul
      (quatNormalize
        ⟨reverseSquaredScalingSpec (o.b : ℝ), reverseSquaredScalingSpec (o.c : ℝ),
         reverseSquaredScalingSpec (o.d : ℝ), reverseSquaredScalingSpec (o.a : ℝ)⟩)
      zRotation)

/-! ## Derived characterizations of the builder -/

/-- The material a single line contributes (none when the line is skipped,
rejected, or yields a geometry record). -/
def lineMaterial (l : List Char) : Option QdfMaterial :=
  match classifyLine l with
  | some (Sum.inl m) => some m
  | _ => none

/-- The geometry record a single line contributes. -/
def lineGeometry (l : List Char) : Option QdfGeometry :=
  match classifyLine l with
  | some (Sum.inr g) => some g
  | _ => none

/-- Kind projection used to state that each per-kind list is the
subsequence of the flat list carrying that tag. -/
def geomConnector3 : QdfGeometry → Option QdfConnector3
  | .connector3 c => some c
  | _ => none

/-- Kind projection for connector45_2. -/
def geomConnector45 : QdfGeometry → Option QdfConnector45
  | .connector45 c => some c
  | _ => none

/-- Kind projection for tube2. -/
def geomTube : QdfGeometry → Option QdfTube
  | .tube t => some t
  | _ => none

/-- Kind projection for panel2. -/
def geomPanel : QdfGeometry → Option QdfPanelRec
  | .panel p => some p
  | _ => none

/-- Kind projection for display2. -/
def geomDisplay : QdfGeometry → Option QdfPanelRec
  | .display p => some p
  | _ => none

/-- Kind projection for textil2. -/
def geomTextile : QdfGeometry → Option QdfPanelRec
  | .textile p => some p
  | _ => none

/-- Kind projection for clamp2. -/
def geomClamp : QdfGeometry → Option QdfClampRec
  | .clamp c => some c
  | _ => none

/-- Kind projection for slide2 (and its alias slide-new2). -/
def geomSlide : QdfGeometry → Option QdfClampRec
  | .slide c => some c
  | _ => none

/-- Kind projection for slide-end2. -/
def geomSlideEnd : QdfGeometry → Option QdfClampRec
  | .slideEnd c => some c
  | _ => none

/-- Kind projection for multi-wheel2. -/
def geomWheel : QdfGeometry → Option QdfClampRec
  | .wheel c => some c
  | _ => none

/-- A trimmed line begins with one of the recognized record keywords. -/
def recognizedKeyword (s : List Char) : Bool :=
  isPrefixList (kw "material3") s || isPrefixList (kw "connector3") s ||
  isPrefixList (kw "connector45_2") s || isPrefixList (kw "tube2") s ||
  isPrefixList (kw "panel2") s || isPrefixList (kw "display2") s ||
  isPrefixList (kw "textil2") s || isPrefixList (kw "clamp2") s ||
  isPrefixList (kw "slide2") s || isPrefixList (kw "slide-new2") s ||
  isPrefixList (kw "slide-end2") s || isPrefixList (kw "multi-wheel2") s

/-- The recognized record keywords of the builder dispatch. -/
inductive QdfKeyword where
  | material3
  | connector3
  | connector45
  | tube2
  | panel2
  | display2
  | textil2
  | clamp2
  | slide2
  | slideNew2
  | slideEnd2
  | multiWheel2
deriving DecidableEq

/-- The keyword string checked by the dispatch branch. -/
def keywordString : QdfKeyword → List Char
  | .material3 => kw "material3"
  | .connector3 => kw "connector3"
  | .connector45 => kw "connector45_2"
  | .tube2 => kw "tube2"
  | .panel2 => kw "panel2"
  | .display2 => kw "display2"
  | .textil2 => kw "textil2"
  | .clamp2 => kw "clamp2"
  | .slide2 => kw "slide2"
  | .slideNew2 => kw "slide-new2"
  | .slideEnd2 => kw "slide-end2"
  | .multiWheel2 => kw "multi-wheel2"

/-- The decoder the dispatch branch routes the trimmed line to; slide-new2
is routed to the slide decoder. -/
def keywordDecode : QdfKeyword → List Char → Option (QdfMaterial ⊕ QdfGeometry)
  | .material3, l => (parseMaterialLine l).map Sum.inl
  | .connector3, l => (parseConnector3Line l).map (fun c => Sum.inr (.connector3 c))
  | .connector45, l => (parseConnector45Line l).map (fun c => Sum.inr (.connector45 c))
  | .tube2, l => (parseTubeLine l).map (fun t => Sum.inr (.tube t))
  | .panel2, l => (parsePanelLike l).map (fun p => Sum.inr (.panel p))
  | .display2, l => (parsePanelLike l).map (fun p => Sum.inr (.display p))
  | .textil2, l => (parsePanelLike l).map (fun p => Sum.inr (.textile p))
  | .clamp2, l => (parseClampLike l).map (fun c => Sum.inr (.clamp c))
  | .slide2, l => (parseClampLike l).map (fun c => Sum.inr (.slide c))
  | .slideNew2, l => (parseClampLike l).map (fun c => Sum.inr (.slide c))
  | .slideEnd2, l => (parseClampLike l).map (fun c => Sum.inr (.slideEnd c))
  | .multiWheel2, l => (parseClampLike l).map (fun c => Sum.inr (.wheel c))

/-! ## Concrete inputs and records used by the claim theorems -/

/-- The data line exactly as written in the specification (id outside the
outer brace pair). -/
def c1SpecLine : String := "connector3,1,{0,0,0,1,100,200,300},5,0,3,0,0,0;"

/-- The same record in the payload layout the parser actually accepts: the
id and the orientation block both inside one outer brace pair. -/
def c1OuterLine : String := "connector3,{1,{0,0,0,1,100,200,300},5,0,3,0,0,0};"

/-- The connector3 record decoded from the outer-brace form of the claim-C1
line. -/
def c1Record : QdfConnector3 :=
  { id := 1, orientation := ⟨0, 0, 0, 1, 100, 200, 300⟩, colorId := some 5,
    variant1 := some 0, variant2 := some 3, variant3 := some 0,
    variant4 := some 0, reserved := some 0, connectorKind := .STRAIGHT,
    renderRangeStart := none, renderRangeEnd := none }

/-- A material3 line with exactly the 16 required fields. -/
def c2MatLine16 : String :=
  "material3 \x7b1,\"steel\",0,0.5,0.5,0.5,0,0,0,0,0,0,0,0,0,7\x7d"

/-- The same material3 line with one extra trailing numeric field. -/
def c2MatLine17 : String :=
  "material3 \x7b1,\"steel\",0,0.5,0.5,0.5,0,0,0,0,0,0,0,0,0,7,9\x7d"

/-- An otherwise-valid connector3 line with a seventh trailing parameter
(a visibility-range start). -/
def c2Connector7 : List Char :=
  ("connector3,\x7b1,\x7b0,0,0,1,100,200,300\x7d,5,0,3,0,0,0,4\x7d;").data

/-- A connector3 line whose orientation block holds eight numeric fields. -/
def c3Line8 : String := "connector3,{1,{0,0,0,1,100,200,300,400},5,0,3,0,0,0};"

/-- An orientation block with fewer than seven numeric fields. -/
def c3ShortBlock : List Char := ("\x7b1,2\x7d").data

/-- A geometry line whose leading keyword (camera2) is not recognized. -/
def c9Line : List Char := ("camera2,\x7b1,\x7b0,0,0,1,0,0,0\x7d,2,3\x7d;").data

/-- A line whose trimmed text begins with the keyword tube2 followed by
further non-comma characters. -/
def c10Line : List Char :=
  ("tube2extra,\x7b1,\x7b0,0,0,1,0,0,0\x7d,2,100,3,4\x7d;").data

/-- A connector3 line whose compressed quaternion components are all zero
(the degenerate case of the quaternion decode). -/
def c6Line : List Char :=
  ("connector3,\x7b7,\x7b0,0,0,0,1,2,3\x7d,5,0,3,0,0,0\x7d").data

/-- The record decoded from the degenerate-quaternion line. -/
def c6Record : QdfConnector3 :=
  { id := 7, orientation := ⟨0, 0, 0, 0, 1, 2, 3⟩, colorId := some 5,
    variant1 := some 0, variant2 := some 3, variant3 := some 0,
    variant4 := some 0, reserved := some 0, connectorKind := .STRAIGHT,
    renderRangeStart := none, renderRangeEnd := none }

/-- The degenerate-quaternion record as a member of the geometry union. -/
def c6Geom : QdfGeometry := .connector3 c6Record

/-- An accepted tube2 line with length parameter 100. -/
def c7Line : List Char :=
  ("tube2,\x7b4,\x7b0,0,0,1,10,20,30\x7d,2,100,5,6\x7d").data

/-- The record decoded from the tube2 line above. -/
def c7Record : QdfTube :=
  { id := 4, orientation := ⟨0, 0, 0, 1, 10, 20, 30⟩, materialId := some 2,
    length := some 100, dim2 := some 5, dim3 := some 6,
    renderRangeStart := none, renderRangeEnd := none }


/-! ## Theorems

First, the mkRat-written arithmetic helpers agree with the field
operations of Rat. -/

theorem rat_num_mul_den (a : Rat) : (a.num : ℚ) = a * a.den :=
  (div_eq_iff (by positivity : ((a.den : ℚ)) ≠ 0)).mp (Rat.num_div_den a)

theorem ratMul_eq (a b : Rat) : ratMul a b = a * b := by
  unfold ratMul
  rw [Rat.mkRat_eq_divInt, Rat.divInt_eq_div]
  push_cast
  rw [← div_mul_div_comm, Rat.num_div_den, Rat.num_div_den]

theorem ratAdd_eq (a b : Rat) : ratAdd a b = a + b := by
  unfold ratAdd
  rw [Rat.mkRat_eq_divInt, Rat.divInt_eq_div]
  push_cast
  have ha : ((a.den : ℚ)) ≠ 0 := by positivity
  have hb : ((b.den : ℚ)) ≠ 0 := by positivity
  field_simp
  rw [rat_num_mul_den a, rat_num_mul_den b]
  ring

theorem ratDiv_eq (a b : Rat) : ratDiv a b = a / b := by
  unfold ratDiv
  rcases lt_trichotomy b.num 0 with h | h | h
  · rw [if_pos h, Rat.mkRat_eq_divInt, Rat.divInt_eq_div]
    push_cast [Int.cast_natAbs]
    rw [abs_of_neg (by exact_mod_cast h : ((b.num : ℚ)) < 0)]
    have ha : ((a.den : ℚ)) ≠ 0 := by positivity
    have hd : ((b.den : ℚ)) ≠ 0 := by positivity
    have hb : b ≠ 0 := by
      intro hb0
      rw [hb0] at h
      simp at h
    field_simp
    rw [rat_num_mul_den a, rat_num_mul_den b]
    ring
  · have hb0 : b = 0 := Rat.num_eq_zero.mp h
    rw [if_neg (by omega), hb0]
    simp [Rat.mkRat_eq_divInt]
  · rw [if_neg (by omega), Rat.mkRat_eq_divInt, Rat.divInt_eq_div]
    push_cast [Int.cast_natAbs]
    rw [abs_of_pos (by exact_mod_cast h : (0 : ℚ) < ((b.num : ℚ)))]
    have ha : ((a.den : ℚ)) ≠ 0 := by positivity
    have hd : ((b.den : ℚ)) ≠ 0 := by positivity
    have hb : b ≠ 0 := by
      intro hb0
      rw [hb0] at h
      simp at h
    field_simp
    rw [rat_num_mul_den a, rat_num_mul_den b]
    ring

theorem ratPow_eq (a : Rat) (n : Nat) : ratPow a n = a ^ n := by
  induction n with
  | zero => rfl
  | succ k ih => rw [ratPow, ih, ratMul_eq, pow_succ]

theorem ratZpow_eq (a : Rat) (z : Int) : ratZpow a z = a ^ z := by
  cases z with
  | ofNat n => rw [ratZpow, ratPow_eq]; exact (zpow_natCast a n).symm
  | negSucc n =>
    rw [ratZpow, ratDiv_eq, ratPow_eq, zpow_negSucc]
    exact one_div _

theorem ratFloor_eq (q : Rat) : ratFloor q = Int.floor q := by
  unfold ratFloor
  rw [Int.fdiv_eq_ediv _ (by positivity)]
  exact Rat.floor_def.symm


/-! Unit-norm facts about the quaternion pipeline. -/

theorem quatNormSq_nonneg (q : QuatR) : 0 ≤ quatNormSq q := by
  unfold quatNormSq
  nlinarith [mul_self_nonneg q.x, mul_self_nonneg q.y, mul_self_nonneg q.z,
    mul_self_nonneg q.w]

theorem quatLength_normalize (q : QuatR) : quatLength (quatNormalize q) = 1 := by
  unfold quatNormalize
  by_cases h : quatLength q = 0
  · rw [if_pos h]
    unfold quatLength quatNormSq
    norm_num [Real.sqrt_one]
  · rw [if_neg h]
    have hnn : 0 ≤ quatNormSq q := quatNormSq_nonneg q
    have hsq : quatLength q * quatLength q = quatNormSq q :=
      Real.mul_self_sqrt hnn
    have hns : quatNormSq q ≠ 0 := by
      intro h0
      apply h
      unfold quatLength
      rw [h0, Real.sqrt_zero]
    have h2 : quatNormSq ⟨q.x / quatLength q, q.y / quatLength q,
        q.z / quatLength q, q.w / quatLength q⟩ = 1 := by
      unfold quatNormSq
      field_simp
      rw [hsq]
      unfold quatNormSq
      ring
    unfold quatLength at h2 ⊢
    rw [h2, Real.sqrt_one]

theorem quatLength_decode (o : QdfOrientation) :
    quatLength (decodeQdfQuaternion o) = 1 := by
  unfold decodeQdfQuaternion
  exact quatLength_normalize _

/-! The signed-square decode of the source agrees with the specification
wording. -/

theorem reverseSquaredScaling_eq_spec (v : ℝ) :
    reverseSquaredScaling v = reverseSquaredScalingSpec v := by
  unfold reverseSquaredScaling reverseSquaredScalingSpec
  rcases lt_trichotomy v 0 with h | h | h
  · rw [if_pos h, Real.sign_of_neg h]
  · rw [h]
    simp [Real.sign_zero]
  · rw [if_neg (by linarith), Real.sign_of_pos h]


/-! Characterization of the single-pass builder as a filterMap over the
source lines, and of the by-kind split as a filterMap over the flat list. -/

theorem foldl_qdfStep (lines : List (List Char))
    (acc : List QdfMaterial × List QdfGeometry) :
    lines.foldl qdfStep acc =
      (acc.1 ++ lines.filterMap lineMaterial,
        acc.2 ++ lines.filterMap lineGeometry) := by
  induction lines generalizing acc with
  | nil => simp
  | cons l ls ih =>
    simp only [List.foldl_cons, List.filterMap_cons]
    rw [ih]
    unfold qdfStep lineMaterial lineGeometry
    cases hc : classifyLine l with
    | none => simp
    | some v =>
      cases v with
      | inl m => simp
      | inr g => simp

theorem partition_foldl (gs : List QdfGeometry) (p : GeomPartition) :
    gs.foldl partitionStep p =
      ⟨p.connectors ++ gs.filterMap geomConnector3,
        p.connector45s ++ gs.filterMap geomConnector45,
        p.tubes ++ gs.filterMap geomTube,
        p.panels ++ gs.filterMap geomPanel,
        p.displayPanels ++ gs.filterMap geomDisplay,
        p.textiles ++ gs.filterMap geomTextile,
        p.clamps ++ gs.filterMap geomClamp,
        p.slides ++ gs.filterMap geomSlide,
        p.slideEnds ++ gs.filterMap geomSlideEnd,
        p.wheels ++ gs.filterMap geomWheel⟩ := by
  induction gs generalizing p with
  | nil => simp
  | cons g gs ih =>
    cases g <;>
      simp [partitionStep, ih, geomConnector3, geomConnector45, geomTube,
        geomPanel, geomDisplay, geomTextile, geomClamp, geomSlide,
        geomSlideEnd, geomWheel]

theorem partitionGeoms_eq (gs : List QdfGeometry) :
    partitionGeoms gs =
      ⟨gs.filterMap geomConnector3, gs.filterMap geomConnector45,
        gs.filterMap geomTube, gs.filterMap geomPanel,
        gs.filterMap geomDisplay, gs.filterMap geomTextile,
        gs.filterMap geomClamp, gs.filterMap geomSlide,
        gs.filterMap geomSlideEnd, gs.filterMap geomWheel⟩ := by
  unfold partitionGeoms
  rw [partition_foldl]
  unfold GeomPartition.empty
  simp

theorem parseQdfCore_spec (lines : List (List Char)) :
    parseQdfCore lines =
      { materials := lines.filterMap lineMaterial,
        geometries := lines.filterMap lineGeometry,
        connectors := (lines.filterMap lineGeometry).filterMap geomConnector3,
        connector45s := (lines.filterMap lineGeometry).filterMap geomConnector45,
        tubes := (lines.filterMap lineGeometry).filterMap geomTube,
        panels := (lines.filterMap lineGeometry).filterMap geomPanel,
        displayPanels := (lines.filterMap lineGeometry).filterMap geomDisplay,
        textiles := (lines.filterMap lineGeometry).filterMap geomTextile,
        clamps := (lines.filterMap lineGeometry).filterMap geomClamp,
        slides := (lines.filterMap lineGeometry).filterMap geomSlide,
        slideEnds := (lines.filterMap lineGeometry).filterMap geomSlideEnd,
        wheels := (lines.filterMap lineGeometry).filterMap geomWheel } := by
  unfold parseQdfCore
  rw [foldl_qdfStep]
  dsimp only
  rw [partitionGeoms_eq]
  dsimp only
  rfl

/-! A line whose trimmed text starts with no recognized keyword contributes
nothing. -/

theorem classifyLine_of_unrecognized {line : List Char}
    (h : recognizedKeyword (listTrim line) = false) :
    classifyLine line = none := by
  unfold recognizedKeyword at h
  simp only [Bool.or_eq_false_iff] at h
  obtain ⟨⟨⟨⟨⟨⟨⟨⟨⟨⟨⟨h1, h2⟩, h3⟩, h4⟩, h5⟩, h6⟩, h7⟩, h8⟩, h9⟩, h10⟩, h11⟩, h12⟩ := h
  unfold classifyLine
  simp_all


/-! Head-stage facts shared by the per-kind parsers. -/

theorem geomParams_of_geomHead {line : List Char} {id : Int}
    {o : QdfOrientation} {params : List (List Char)}
    (h : geomHead line = some (id, o, params)) : geomParams line = params := by
  unfold geomParams
  rw [h]

theorem geomHead_idToken {line : List Char} {id : Int} {o : QdfOrientation}
    {params : List (List Char)} (h : geomHead line = some (id, o, params)) :
    jsParseInt (geomIdToken line) = some id := by
  unfold geomHead at h
  unfold geomIdToken
  cases ho : outerBraceContent line with
  | none => rw [ho] at h; exact absurd h (by simp)
  | some content =>
    rw [ho] at h
    dsimp only at h
    cases hb : (extractInnerBraceBlock content).block with
    | none => rw [hb] at h; exact absurd h (by simp)
    | some block =>
      rw [hb] at h
      dsimp only at h
      cases hpo : parseOrientationBlock block with
      | none => rw [hpo] at h; exact absurd h (by simp)
      | some orientation =>
        rw [hpo] at h
        dsimp only at h
        cases hid : jsParseInt
            (listTrim ((splitOnChar ',' (extractInnerBraceBlock content).before).headD [])) with
        | none => rw [hid] at h; exact absurd h (by simp)
        | some i =>
          rw [hid] at h
          dsimp only at h
          rw [Option.some_inj] at h
          have hii : i = id := congrArg Prod.fst h
          rw [hii]


/-! Rejection of records carrying a visibility-range start field, one lemma
per geometry parser. -/

theorem parseConnector3Line_extraParam {line : List Char}
    (h : 7 ≤ (geomParams line).length) : parseConnector3Line line = none := by
  unfold parseConnector3Line
  cases hg : geomHead line with
  | none => rfl
  | some trip =>
    obtain ⟨id, o, params⟩ := trip
    rw [geomParams_of_geomHead hg] at h
    dsimp only
    rw [if_neg (by omega : ¬params.length < 6), if_pos h]
    simp

theorem parseConnector45Line_extraParam {line : List Char}
    (h : 4 ≤ (geomParams line).length) : parseConnector45Line line = none := by
  unfold parseConnector45Line
  cases hg : geomHead line with
  | none => rfl
  | some trip =>
    obtain ⟨id, o, params⟩ := trip
    rw [geomParams_of_geomHead hg] at h
    dsimp only
    rw [if_neg (by omega : ¬params.length < 3), if_pos h]
    simp

theorem parseTubeLine_extraParam {line : List Char}
    (h : 5 ≤ (geomParams line).length) : parseTubeLine line = none := by
  unfold parseTubeLine
  cases hg : geomHead line with
  | none => rfl
  | some trip =>
    obtain ⟨id, o, params⟩ := trip
    rw [geomParams_of_geomHead hg] at h
    dsimp only
    rw [if_neg (by omega : ¬params.length < 4), if_pos h]
    simp

theorem parsePanelLike_extraParam {line : List Char}
    (h : 7 ≤ (geomParams line).length) : parsePanelLike line = none := by
  unfold parsePanelLike
  cases hg : geomHead line with
  | none => rfl
  | some trip =>
    obtain ⟨id, o, params⟩ := trip
    rw [geomParams_of_geomHead hg] at h
    dsimp only
    rw [if_neg (by omega : ¬params.length < 6), if_pos h]
    simp

theorem parseClampLike_extraParam {line : List Char}
    (h : 3 ≤ (geomParams line).length) : parseClampLike line = none := by
  unfold parseClampLike
  cases hg : geomHead line with
  | none => rfl
  | some trip =>
    obtain ⟨id, o, params⟩ := trip
    rw [geomParams_of_geomHead hg] at h
    dsimp only
    rw [if_neg (by omega : ¬params.length < 2), if_pos h]
    simp


/-! Facts for the orientation-block and id-token validation. -/

theorem parseOrientationBlock_short {block : List Char}
    (h : (orientationTokens block).length < 7) :
    parseOrientationBlock block = none := by
  unfold parseOrientationBlock
  dsimp only
  rw [if_pos h]

theorem parseOrientationBlock_length {block : List Char} {o : QdfOrientation}
    (h : parseOrientationBlock block = some o) :
    7 ≤ (orientationTokens block).length := by
  by_contra hlt
  rw [Nat.not_le] at hlt
  rw [parseOrientationBlock_short hlt] at h
  exact absurd h (by simp)

theorem parseConnector3Line_id {line : List Char} {c : QdfConnector3}
    (h : parseConnector3Line line = some c) :
    jsParseInt (geomIdToken line) = some c.id := by
  unfold parseConnector3Line at h
  cases hg : geomHead line with
  | none => rw [hg] at h; exact absurd h (by simp)
  | some trip =>
    obtain ⟨id, o, params⟩ := trip
    rw [hg] at h
    dsimp only at h
    by_cases h6 : params.length < 6
    · rw [if_pos h6] at h
      exact absurd h (by simp)
    · rw [if_neg h6] at h
      by_cases h7 : 7 ≤ params.length
      · rw [if_pos h7] at h
        simp at h
      · rw [if_neg h7] at h
        rw [if_neg (by simp)] at h
        rw [Option.some_inj] at h
        rw [← h]
        dsimp only
        exact geomHead_idToken hg


/-! The boolean prefix test coincides with the list prefix relation. -/

theorem isPrefixList_iff {p s : List Char} : isPrefixList p s = true ↔ p <+: s := by
  induction p generalizing s with
  | nil => simp [isPrefixList]
  | cons a as ih =>
    cases s with
    | nil => simp [isPrefixList]
    | cons b bs =>
      simp [isPrefixList, Bool.and_eq_true, ih, List.cons_prefix_cons, beq_iff_eq]

/-! ## Claim theorems -/

/-- C1, counterexample: on the single input line written in the claim,
with the id token outside the outer brace pair, parseQdf accepts nothing at
all — the connector list and the whole flat geometry list are empty, so the
model does not contain the claimed connector3 record. -/
theorem claim_C1_counterexample :
    (parseQdf c1SpecLine).model.connectors = [] ∧
    (parseQdf c1SpecLine).model.geometries = [] := by
  decide

/-- C1, amended: with the record payload wrapped in one outer brace pair
(id and orientation block inside), the model contains exactly one
connector3 record, with id 1, position (100, 200, 300) taken from the raw
orientation, connectorType 3, and topology STRAIGHT. -/
theorem claim_C1_amended :
    (parseQdf c1OuterLine).model.connectors = [c1Record] ∧
    c1Record.id = 1 ∧ c1Record.variant2 = some 3 ∧
    c1Record.connectorKind = .STRAIGHT ∧
    connector3Position c1Record = ⟨100, 200, 300⟩ := by
  refine ⟨by decide, by decide, by decide, by decide, ?_⟩
  unfold connector3Position rawPositionR c1Record
  norm_num

/-- C2, counterexample: a material3 record is not excluded by an extra
trailing numeric field — the 16-field line and the same line with a 17th
field appended both leave exactly one material in the model. -/
theorem claim_C2_counterexample :
    (parseQdf c2MatLine16).model.materials.length = 1 ∧
    (parseQdf c2MatLine17).model.materials.length = 1 := by
  decide

/-- C2, amended: for the geometry record kinds (connector3, connector45_2,
tube2, panel-like, clamp-like) a trailing parameter beyond the kind's fixed
count is read as a visibility-range start and makes the parser reject the
record, so it is absent from every output collection; material3 records
are not subject to this rejection. -/
theorem claim_C2_amended :
    (∀ line : List Char, 7 ≤ (geomParams line).length →
      parseConnector3Line line = none) ∧
    (∀ line : List Char, 4 ≤ (geomParams line).length →
      parseConnector45Line line = none) ∧
    (∀ line : List Char, 5 ≤ (geomParams line).length →
      parseTubeLine line = none) ∧
    (∀ line : List Char, 7 ≤ (geomParams line).length →
      parsePanelLike line = none) ∧
    (∀ line : List Char, 3 ≤ (geomParams line).length →
      parseClampLike line = none) :=
  ⟨fun _ h => parseConnector3Line_extraParam h,
   fun _ h => parseConnector45Line_extraParam h,
   fun _ h => parseTubeLine_extraParam h,
   fun _ h => parsePanelLike_extraParam h,
   fun _ h => parseClampLike_extraParam h⟩

/-- C2, witness: a concrete otherwise-valid connector3 line with a seventh
trailing numeric field is rejected. -/
theorem claim_C2_witness : parseConnector3Line c2Connector7 = none :=
  claim_C2_amended.1 c2Connector7 (by decide)

/-- C3, counterexample: an orientation block holding eight numeric fields
does not cause rejection — the record is accepted and its stored
orientation keeps the first seven fields. -/
theorem claim_C3_counterexample :
    (parseQdf c3Line8).model.connectors.map (fun c => c.orientation) =
      [⟨0, 0, 0, 1, 100, 200, 300⟩] := by
  decide

/-- C3, amended: a record enters the model only if its id token parses as
an integer and its orientation block parses at least 7 numeric fields (the
first seven are used): fewer than 7 tokens reject the block, an accepted
block always has at least 7 tokens, and an accepted connector3 record
always carries an id whose token parsed as an integer. -/
theorem claim_C3_amended :
    (∀ block : List Char, (orientationTokens block).length < 7 →
      parseOrientationBlock block = none) ∧
    (∀ (block : List Char) (o : QdfOrientation),
      parseOrientationBlock block = some o →
      7 ≤ (orientationTokens block).length) ∧
    (∀ (line : List Char) (c : QdfConnector3),
      parseConnector3Line line = some c →
      jsParseInt (geomIdToken line) = some c.id) :=
  ⟨fun _ h => parseOrientationBlock_short h,
   fun _ _ h => parseOrientationBlock_length h,
   fun _ _ h => parseConnector3Line_id h⟩

/-- C3, witness: a concrete two-token orientation block is rejected. -/
theorem claim_C3_witness : parseOrientationBlock c3ShortBlock = none :=
  claim_C3_amended.1 c3ShortBlock (by decide)

/-- C4: on every 6-bit connector mask, the topology classifier of the
source agrees with the case analysis of the specification: INVALID on
popcount 0 and 1; STRAIGHT exactly on a full axis pair at popcount 2, else
L; CORNER exactly on one bit per axis at popcount 3, else T; CROSS exactly
on one empty axis with the other two occupied at popcount 4, else FOUR_WAY;
FIVE_WAY at popcount 5; HUB at popcount 6. -/
theorem claim_C4 :
    ∀ m : Fin 64, getConnectorCategory m.val = connectorCategorySpec m.val := by
  decide


/-- C5: for every orientation septuple, the decoded transform of the source
equals the specification pipeline — signed-square decode s(v) = sign(v)
times the square root of the absolute value applied to a, b, c, d; a
quaternion with components x = s(b), y = s(c), z = s(d), w = s(a);
normalization; right-multiplication by the fixed 90-degree Z correction;
re-normalization — and the position is the raw (x, y, z), undecoded. -/
theorem claim_C5 :
    (∀ o : QdfOrientation, decodeQdfQuaternion o = decodeQdfQuaternionSpec o) ∧
    (∀ o : QdfOrientation,
      rawPositionR o = ⟨((o.x : ℝ)), ((o.y : ℝ)), ((o.z : ℝ))⟩) := by
  constructor
  · intro o
    unfold decodeQdfQuaternion decodeQdfQuaternionSpec
    rw [reverseSquaredScaling_eq_spec, reverseSquaredScaling_eq_spec,
      reverseSquaredScaling_eq_spec, reverseSquaredScaling_eq_spec]
  · intro o
    rfl

/-- C6: every geometry record accepted into the model stores the quaternion
decoded from its orientation, and that quaternion has norm exactly 1 —
hence within the claimed epsilon — including the degenerate case with all
of a, b, c, d zero, where the normalize step substitutes the identity
quaternion. -/
theorem claim_C6 :
    ∀ (lines : List (List Char)) (g : QdfGeometry),
      g ∈ (parseQdfCore lines).geometries →
      quatLength (geometryQuaternion g) = 1 ∧
      |quatLength (geometryQuaternion g) - 1| ≤ 1 / 1000000 := by
  intro lines g _
  have h1 : quatLength (geometryQuaternion g) = 1 := by
    cases g <;> exact quatLength_decode _
  refine ⟨h1, ?_⟩
  rw [h1]
  norm_num

/-- C6, witness: the degenerate all-zero compressed quaternion, on a
connector3 record accepted into a concrete model. -/
theorem claim_C6_witness :
    quatLength (geometryQuaternion c6Geom) = 1 ∧
    |quatLength (geometryQuaternion c6Geom) - 1| ≤ 1 / 1000000 :=
  claim_C6 [c6Line] c6Geom (by decide)

/-- C7: an accepted tube2 record with length parameter len has model
position equal to the raw orientation position plus the local offset
(0, -len/2, 0) rotated into world space by the record's decoded quaternion,
and the stored quaternion itself is the ordinary decoded quaternion,
unchanged by the offset computation. -/
theorem claim_C7 :
    ∀ (line : List Char) (t : QdfTube) (len : Rat),
      parseTubeLine line = some t → t.length = some len →
      tubePosition t = some (vecAdd (rawPositionR t.orientation)
        (applyQuaternion ⟨0, -(((len : ℝ)) / 2), 0⟩ (tubeQuaternion t))) ∧
      tubeQuaternion t = decodeQdfQuaternion t.orientation := by
  intro line t len _ hl
  constructor
  · unfold tubePosition
    rw [hl]
    unfold addHalfTubeOffset
    norm_num
  · rfl

/-- C7, witness: a concrete accepted tube2 line with length 100. -/
theorem claim_C7_witness :
    tubePosition c7Record = some (vecAdd (rawPositionR c7Record.orientation)
      (applyQuaternion ⟨0, -((((100 : Rat)) : ℝ) / 2), 0⟩
        (tubeQuaternion c7Record))) ∧
    tubeQuaternion c7Record = decodeQdfQuaternion c7Record.orientation :=
  claim_C7 c7Line c7Record 100 (by decide) (by decide)

/-- C8: for every input text, the flat geometry list is exactly the records
the source lines yield, in source line order (one optional record per
line, so duplicates appear as often as their lines do), and every per-kind
collection is the subsequence of the flat list carrying that kind tag, in
the same order. -/
theorem claim_C8 :
    ∀ text : String,
      (parseQdf text).model.geometries =
        (splitLines text.data).filterMap lineGeometry ∧
      (parseQdf text).model.materials =
        (splitLines text.data).filterMap lineMaterial ∧
      (parseQdf text).model.connectors =
        (parseQdf text).model.geometries.filterMap geomConnector3 ∧
      (parseQdf text).model.connector45s =
        (parseQdf text).model.geometries.filterMap geomConnector45 ∧
      (parseQdf text).model.tubes =
        (parseQdf text).model.geometries.filterMap geomTube ∧
      (parseQdf text).model.panels =
        (parseQdf text).model.geometries.filterMap geomPanel ∧
      (parseQdf text).model.displayPanels =
        (parseQdf text).model.geometries.filterMap geomDisplay ∧
      (parseQdf text).model.textiles =
        (parseQdf text).model.geometries.filterMap geomTextile ∧
      (parseQdf text).model.clamps =
        (parseQdf text).model.geometries.filterMap geomClamp ∧
      (parseQdf text).model.slides =
        (parseQdf text).model.geometries.filterMap geomSlide ∧
      (parseQdf text).model.slideEnds =
        (parseQdf text).model.geometries.filterMap geomSlideEnd ∧
      (parseQdf text).model.wheels =
        (parseQdf text).model.geometries.filterMap geomWheel := by
  intro text
  unfold parseQdf
  dsimp only
  rw [parseQdfCore_spec]
  exact ⟨rfl, rfl, rfl, rfl, rfl, rfl, rfl, rfl, rfl, rfl, rfl, rfl⟩

/-- C9: a line whose trimmed text begins with no recognized record keyword
contributes nothing to any output collection — removing it from the line
list leaves the parsed model unchanged — and the parse of the remaining
lines still returns a model value (the builder is total). -/
theorem claim_C9 :
    ∀ (ls1 ls2 : List (List Char)) (line : List Char),
      recognizedKeyword (listTrim line) = false →
      parseQdfCore (ls1 ++ line :: ls2) = parseQdfCore (ls1 ++ ls2) := by
  intro ls1 ls2 line h
  unfold parseQdfCore
  have hstep : ∀ acc, qdfStep acc line = acc := by
    intro acc
    unfold qdfStep
    rw [classifyLine_of_unrecognized h]
  rw [List.foldl_append, List.foldl_append, List.foldl_cons, hstep]

/-- C9, witness: a concrete camera2 line contributes nothing. -/
theorem claim_C9_witness : parseQdfCore [c9Line] = parseQdfCore [] :=
  claim_C9 [] [] c9Line (by decide)

/-- C10: keyword dispatch is a string-prefix match, not an exact token
match — every line whose trimmed text begins with a recognized keyword
string is routed to that keyword's decoder, even when non-comma characters
follow the keyword; concretely, a line beginning tube2extra parses into
the model as a tube2 record. -/
theorem claim_C10 :
    (∀ (k : QdfKeyword) (line : List Char),
      isPrefixList (keywordString k) (listTrim line) = true →
      classifyLine line = keywordDecode k (listTrim line)) ∧
    (parseQdfCore [c10Line]).tubes.length = 1 := by
  constructor
  · intro k line h
    rw [isPrefixList_iff] at h
    obtain ⟨t, ht⟩ := h
    cases k <;> (unfold classifyLine keywordDecode; rw [← ht]; rfl)
  · decide

/-- C10, witness: the concrete tube2extra line is dispatched to the tube2
decoder. -/
theorem claim_C10_witness :
    classifyLine c10Line = keywordDecode .tube2 (listTrim c10Line) :=
  claim_C10.1 .tube2 c10Line (by decide)

end QdfViewer
